import Mathlib

/-!
Shallow embedding of the OpenGL state-tracking shim
(`src/src/modules/graphics/opengl/OpenGL.cpp` of the LOVE engine).

The C++ class `OpenGL` mutates a member `state` and issues driver calls
(`glScissor`, `glBindTexture`, ...).  The embedding passes the state
explicitly: each setter takes the current `GLState` and returns the list
of driver calls it issues together with the updated state.  A raised
`love::Exception` is modelled as a `some msg` in the third component of
the result, with the state as it was at the throw point (the source code
performs its cache update after every throw site, so a fault leaves the
cache untouched).  Machine integers: `GLint` is `Int`, `GLuint`/`GLenum`
are `Nat`, `size_t` is `Nat`, and the `int64` arithmetic of
`updateTextureMemorySize` wraps modulo `2 ^ 64` (two's complement).
Floating-point anisotropy values are modelled over `ℚ`, which is faithful
for the ordering and clamping logic the code performs on them.
-/

namespace LoveGL

/-- GL enum constant. -/
def GL_ZERO : Nat := 0

/-- GL enum constant. -/
def GL_ONE : Nat := 1

/-- GL enum constant. -/
def GL_FUNC_ADD : Nat := 0x8006

/-- GL enum constant. -/
def GL_FUNC_SUBTRACT : Nat := 0x800A

/-- GL enum constant. -/
def GL_FUNC_REVERSE_SUBTRACT : Nat := 0x800B

/-- GL enum constant. -/
def GL_NEAREST : Nat := 0x2600

/-- GL enum constant. -/
def GL_LINEAR : Nat := 0x2601

/-- GL enum constant. -/
def GL_NEAREST_MIPMAP_NEAREST : Nat := 0x2700

/-- GL enum constant. -/
def GL_LINEAR_MIPMAP_NEAREST : Nat := 0x2701

/-- GL enum constant. -/
def GL_NEAREST_MIPMAP_LINEAR : Nat := 0x2702

/-- GL enum constant. -/
def GL_LINEAR_MIPMAP_LINEAR : Nat := 0x2703

/-- GL enum constant. -/
def GL_TEXTURE_MAG_FILTER : Nat := 0x2800

/-- GL enum constant. -/
def GL_TEXTURE_MIN_FILTER : Nat := 0x2801

/-- GL enum constant. -/
def GL_TEXTURE_MAX_ANISOTROPY_EXT : Nat := 0x84FE

/-- `OpenGL::Viewport`: a rectangle of `GLint` fields, used for both the
viewport and the scissor box. -/
structure Viewport where
  x : Int
  y : Int
  w : Int
  h : Int
deriving DecidableEq

/-- `OpenGL::BlendState`: blend factors (`GLenum`) and equation. -/
structure BlendState where
  srcRGB : Nat
  srcA : Nat
  dstRGB : Nat
  dstA : Nat
  func : Nat
deriving DecidableEq

/-- The default blend state set by `initContext`:
`{GL_ONE, GL_ONE, GL_ZERO, GL_ZERO, GL_FUNC_ADD}`. -/
def defaultBlend : BlendState :=
  { srcRGB := GL_ONE, srcA := GL_ONE, dstRGB := GL_ZERO, dstA := GL_ZERO
    func := GL_FUNC_ADD }

/-- The fields of the member struct `OpenGL::state` that the verified
operations read or write: cached viewport, cached scissor rectangle
(top-left-origin convention), cached blend state, the texture handle
bound to each texture unit, and the current texture unit index. -/
structure GLState where
  viewport : Viewport
  scissor : Viewport
  blend : BlendState
  textureUnits : List Nat
  curTextureUnit : Nat
deriving DecidableEq

/-- Capability flags consulted by `setBlendState`: the GLAD
version/extension booleans fixed at context initialization. -/
structure GLCaps where
  es2 : Bool
  version14 : Bool
  extBlendMinmax : Bool
  extBlendSubtract : Bool
  extBlendFuncSeparate : Bool
deriving DecidableEq

/-- One call into the native driver, as issued by the embedded
operations (the mock-driver trace of the testable properties). -/
inductive DriverCall where
  | viewportCall (x y w h : Int)
  | scissorCall (x y w h : Int)
  | blendEquationCore (func : Nat)
  | blendEquationEXT (func : Nat)
  | blendFuncCall (src dst : Nat)
  | blendFuncSeparateCore (srcRGB dstRGB srcA dstA : Nat)
  | blendFuncSeparateEXT (srcRGB dstRGB srcA dstA : Nat)
  | bindTextureCall (texture : Nat)
  | texParameteri (pname : Nat) (value : Nat)
  | texParameterf (pname : Nat) (value : ℚ)
deriving DecidableEq

/-- `OpenGL::setScissor(v)`.  With a Canvas (off-screen render target)
active the rectangle goes to `glScissor` unchanged; otherwise the
vertical coordinate is flipped against the cached viewport height.  The
cache always stores the requested rectangle. -/
def setScissor (canvasActive : Bool) (st : GLState) (v : Viewport) :
    List DriverCall × GLState :=
  if canvasActive then
    ([DriverCall.scissorCall v.x v.y v.w v.h], { st with scissor := v })
  else
    ([DriverCall.scissorCall v.x (st.viewport.h - (v.y + v.h)) v.w v.h],
     { st with scissor := v })

/-- `OpenGL::setViewport(v)`: issues `glViewport`, stores `v` in the
cache, then re-runs `setScissor` on the cached scissor rectangle (with
the viewport cache already updated to `v`). -/
def setViewport (canvasActive : Bool) (st : GLState) (v : Viewport) :
    List DriverCall × GLState :=
  let st1 : GLState := { st with viewport := v }
  let s := setScissor canvasActive st1 st1.scissor
  (DriverCall.viewportCall v.x v.y v.w v.h :: s.1, s.2)

/-- `OpenGL::bindTexture(texture)`: compares against the cached handle of
the current texture unit; on a difference it updates the cache and issues
one `glBindTexture`, otherwise it does nothing. -/
def bindTexture (st : GLState) (texture : Nat) : List DriverCall × GLState :=
  if texture ≠ st.textureUnits.getD st.curTextureUnit 0 then
    ([DriverCall.bindTextureCall texture],
     { st with textureUnits := st.textureUnits.set st.curTextureUnit texture })
  else
    ([], st)

/-- `OpenGL::getBlendState()`. -/
def getBlendState (st : GLState) : BlendState := st.blend

/-- The blend-factor half of `OpenGL::setBlendState` (the code after the
equation stage): a single `glBlendFunc` when the RGB and alpha factors
agree, otherwise the separated call (core, then EXT), otherwise a fault.
`eqCalls` is the trace of the already-performed equation stage. -/
def blendFactorStage (c : GLCaps) (st : GLState) (blend : BlendState)
    (eqCalls : List DriverCall) : List DriverCall × GLState × Option String :=
  if blend.srcRGB = blend.srcA ∧ blend.dstRGB = blend.dstA then
    (eqCalls ++ [DriverCall.blendFuncCall blend.srcRGB blend.dstRGB],
     { st with blend := blend }, none)
  else if c.es2 || c.version14 then
    (eqCalls ++
       [DriverCall.blendFuncSeparateCore blend.srcRGB blend.dstRGB blend.srcA blend.dstA],
     { st with blend := blend }, none)
  else if c.extBlendFuncSeparate then
    (eqCalls ++
       [DriverCall.blendFuncSeparateEXT blend.srcRGB blend.dstRGB blend.srcA blend.dstA],
     { st with blend := blend }, none)
  else
    (eqCalls, st,
     some ("This graphics card does not support separated rgb and alpha blend functions!"))

/-- `OpenGL::setBlendState(blend)`: equation via `glBlendEquation` when
the core version is available, `glBlendEquationEXT` as extension
fallback; with neither mechanism, only a requested
`GL_FUNC_REVERSE_SUBTRACT` equation faults (any other equation value is
silently left at the driver default).  Then the factor stage.  The cache
update happens only on the fault-free path. -/
def setBlendState (c : GLCaps) (st : GLState) (blend : BlendState) :
    List DriverCall × GLState × Option String :=
  if c.es2 || c.version14 then
    blendFactorStage c st blend [DriverCall.blendEquationCore blend.func]
  else if c.extBlendMinmax && c.extBlendSubtract then
    blendFactorStage c st blend [DriverCall.blendEquationEXT blend.func]
  else if blend.func = GL_FUNC_REVERSE_SUBTRACT then
    ([], st, some ("This graphics card does not support the subtractive blend mode!"))
  else
    blendFactorStage c st blend []

/-- Abbreviation for theorem statements: some blend-equation mechanism
(core `glBlendEquation` or the minmax+subtract extension pair) exists. -/
def eqMechanism (c : GLCaps) : Bool :=
  c.es2 || c.version14 || (c.extBlendMinmax && c.extBlendSubtract)

/-- Abbreviation for theorem statements: some separated-blend-factor
mechanism (core `glBlendFuncSeparate` or its EXT form) exists. -/
def sepMechanism (c : GLCaps) : Bool :=
  c.es2 || c.version14 || c.extBlendFuncSeparate

/-- `Texture::FilterMode`: FILTER_NONE, FILTER_LINEAR, FILTER_NEAREST. -/
inductive FilterMode where
  | none
  | linear
  | nearest
deriving DecidableEq

/-- `graphics::Texture::Filter`: min/mag/mipmap modes plus requested
anisotropy. -/
structure Filter where
  min : FilterMode
  mag : FilterMode
  mipmap : FilterMode
  anisotropy : ℚ
deriving DecidableEq

/-- `OpenGL::setTextureFilter(f)`: maps the portable filter description
to the driver min/mag enums and issues the two `glTexParameteri` calls;
when the anisotropic-filtering extension is present it clamps
`f.anisotropy` into `[1, maxAnisotropy]`, issues `glTexParameterf`, and
the clamped value replaces the field.  The function returns the trace,
the (possibly updated) filter struct (`f` is passed by reference in the
source) and the C++ return value `f.anisotropy`. -/
def setTextureFilter (extAniso : Bool) (maxAnisotropy : ℚ) (f : Filter) :
    List DriverCall × Filter × ℚ :=
  let gmin : Nat :=
    if f.mipmap = FilterMode.none then
      if f.min = FilterMode.nearest then GL_NEAREST else GL_LINEAR
    else
      if f.min = FilterMode.nearest ∧ f.mipmap = FilterMode.nearest then
        GL_NEAREST_MIPMAP_NEAREST
      else if f.min = FilterMode.nearest ∧ f.mipmap = FilterMode.linear then
        GL_NEAREST_MIPMAP_LINEAR
      else if f.min = FilterMode.linear ∧ f.mipmap = FilterMode.nearest then
        GL_LINEAR_MIPMAP_NEAREST
      else if f.min = FilterMode.linear ∧ f.mipmap = FilterMode.linear then
        GL_LINEAR_MIPMAP_LINEAR
      else
        GL_LINEAR
  let gmag : Nat := if f.mag = FilterMode.nearest then GL_NEAREST else GL_LINEAR
  let baseCalls : List DriverCall :=
    [DriverCall.texParameteri GL_TEXTURE_MIN_FILTER gmin,
     DriverCall.texParameteri GL_TEXTURE_MAG_FILTER gmag]
  if extAniso then
    let clamped : ℚ := min (max f.anisotropy 1) maxAnisotropy
    (baseCalls ++ [DriverCall.texParameterf GL_TEXTURE_MAX_ANISOTROPY_EXT clamped],
     { f with anisotropy := clamped }, clamped)
  else
    (baseCalls, f, f.anisotropy)

/-- `OpenGL::Vendor` enum. -/
inductive Vendor where
  | unknown
  | atiAmd
  | nvidia
  | intel
  | mesaSoft
  | apple
  | microsoft
  | imgtec
  | arm
  | qualcomm
  | broadcom
  | vivante
deriving DecidableEq

/-- Does `needle` start `hay`?  (The prefix test underlying `strstr`.) -/
def leadsWith : List Char → List Char → Bool
  | [], _ => true
  | _ :: _, [] => false
  | a :: as, b :: bs => a == b && leadsWith as bs

/-- C `strstr(hay, needle) != NULL`: case-sensitive substring search. -/
def strstrB : List Char → List Char → Bool
  | hay, needle =>
    leadsWith needle hay ||
      match hay with
      | [] => false
      | _ :: t => strstrB t needle

/-- `OpenGL::initVendor()`: classifies the driver vendor string through a
fixed priority-ordered chain of case-sensitive `strstr` tests; a null
vendor string or no match yields `VENDOR_UNKNOWN`. -/
def initVendor (vstr : Option String) : Vendor :=
  match vstr with
  | Option.none => Vendor.unknown
  | Option.some s =>
    if strstrB s.toList (("ATI Technologies").toList) then Vendor.atiAmd
    else if strstrB s.toList (("NVIDIA").toList) then Vendor.nvidia
    else if strstrB s.toList (("Intel").toList) then Vendor.intel
    else if strstrB s.toList (("Mesa").toList) then Vendor.mesaSoft
    else if strstrB s.toList (("Apple Computer").toList) then Vendor.apple
    else if strstrB s.toList (("Microsoft").toList) then Vendor.microsoft
    else if strstrB s.toList (("Imagination").toList) then Vendor.imgtec
    else if strstrB s.toList (("ARM").toList) then Vendor.arm
    else if strstrB s.toList (("Qualcomm").toList) then Vendor.qualcomm
    else if strstrB s.toList (("Broadcom").toList) then Vendor.broadcom
    else if strstrB s.toList (("Vivante").toList) then Vendor.vivante
    else Vendor.unknown

/-- A 4×4 matrix of the engine's math library (`love::Matrix`).  The
matrix-stack claims depend only on stack discipline, never on entry
values, so the entries are kept abstract rationals. -/
structure Matrix where
  entries : Fin 4 → Fin 4 → ℚ

/-- `Matrix()`: the default constructor of the math library produces the
identity matrix. -/
def Matrix.identity : Matrix :=
  ⟨fun i j => if i = j then 1 else 0⟩

/-- The `matrices` member of the `OpenGL` class: two growable stacks.
The head of the list is the top of the stack (`std::vector::back`). -/
structure Matrices where
  transform : List Matrix
  projection : List Matrix

/-- `OpenGL::initMatrices()`: clears both stacks and pushes one
default-constructed (identity) matrix onto each. -/
def initMatrices : Matrices :=
  { transform := [Matrix.identity], projection := [Matrix.identity] }

/-- `OpenGL::pushTransform()`: `push_back(back())`, duplicating the top
entry.  `back()` on an empty vector is undefined in the source; the
embedding returns the empty stack there and no theorem relies on that
case. -/
def pushTransform : List Matrix → List Matrix
  | [] => []
  | x :: xs => x :: x :: xs

/-- `OpenGL::popTransform()`: an unguarded `pop_back()`.  (`pop_back` on
an empty vector is undefined in the source; the embedding returns the
empty stack there and no theorem relies on that case.) -/
def popTransform (st : List Matrix) : List Matrix := st.tail

/-- A caller-issued stack operation. -/
inductive StackOp where
  | push
  | pop
deriving DecidableEq

/-- Runs a sequence of push/pop operations against a stack. -/
def applyOps : List StackOp → List Matrix → List Matrix
  | [], st => st
  | StackOp.push :: r, st => applyOps r (pushTransform st)
  | StackOp.pop :: r, st => applyOps r (popTransform st)

/-- The caller contract on a stack of height `n`: every push finds a
non-empty stack and every pop finds at least two entries (so it never
removes the last one). -/
def stackSafe : Nat → List StackOp → Bool
  | _, [] => true
  | n, StackOp.push :: r => decide (1 ≤ n) && stackSafe (n + 1) r
  | n, StackOp.pop :: r => decide (2 ≤ n) && stackSafe (n - 1) r

/-- Two's-complement wrap of an integer into `int64` range. -/
def wrap64 (i : Int) : Int := (i + 2 ^ 63) % 2 ^ 64 - 2 ^ 63

/-- The C++ conversion `(int64)n` of a 64-bit `size_t` value. -/
def toInt64 (n : Nat) : Int := wrap64 (n : Int)

/-- `OpenGL::updateTextureMemorySize(oldsize, newsize)`: computes
`(int64)textureMemory + ((int64)newsize - (int64)oldsize)` in wrapping
`int64` arithmetic and stores `max(memsize, 0)` back into the `size_t`
counter (modelled state-passing: the counter is the first argument and
the result). -/
def updateTextureMemorySize (textureMemory oldsize newsize : Nat) : Nat :=
  let memsize : Int :=
    wrap64 (toInt64 textureMemory + wrap64 (toInt64 newsize - toInt64 oldsize))
  (max memsize 0).toNat

/-- A concrete cache state used to instantiate theorems with hypotheses. -/
def demoState : GLState :=
  { viewport := ⟨0, 0, 800, 600⟩, scissor := ⟨10, 20, 30, 40⟩,
    blend := defaultBlend, textureUnits := [7, 3], curTextureUnit := 0 }

/-- A capability table with no optional mechanism available. -/
def noCaps : GLCaps :=
  { es2 := false, version14 := false, extBlendMinmax := false,
    extBlendSubtract := false, extBlendFuncSeparate := false }

/-- A capability table with the core 1.4 blend entry points. -/
def coreCaps : GLCaps :=
  { es2 := false, version14 := true, extBlendMinmax := false,
    extBlendSubtract := false, extBlendFuncSeparate := false }

/-- A blend state requesting the (non-default) `GL_FUNC_SUBTRACT`
equation with matching factors. -/
def subtractBlend : BlendState :=
  { srcRGB := GL_ONE, srcA := GL_ONE, dstRGB := GL_ZERO, dstA := GL_ZERO,
    func := GL_FUNC_SUBTRACT }

/-- A blend state requesting the `GL_FUNC_REVERSE_SUBTRACT` equation. -/
def revSubBlend : BlendState :=
  { srcRGB := GL_ONE, srcA := GL_ONE, dstRGB := GL_ZERO, dstA := GL_ZERO,
    func := GL_FUNC_REVERSE_SUBTRACT }

/-- A filter requesting an anisotropy below 1. -/
def lowAnisoFilter : Filter :=
  { min := FilterMode.nearest, mag := FilterMode.nearest,
    mipmap := FilterMode.none, anisotropy := 0 }

/-- A filter requesting an anisotropy above the driver maximum. -/
def demoFilter : Filter :=
  { min := FilterMode.linear, mag := FilterMode.linear,
    mipmap := FilterMode.linear, anisotropy := 20 }

/-- C1: for every requested top-left-origin scissor rectangle, the driver
receives `(x, H - (y + h), w, h)` (with `H` the cached viewport height)
when no off-screen render target is active, and `(x, y, w, h)` unchanged
when one is active; in both cases the cache stores the requested
rectangle. -/
theorem setScissor_driver_flip (canvasActive : Bool) (st : GLState) (v : Viewport) :
    (setScissor canvasActive st v).1 =
      [DriverCall.scissorCall v.x
        (if canvasActive then v.y else st.viewport.h - (v.y + v.h)) v.w v.h] ∧
    (setScissor canvasActive st v).2.scissor = v := by
  cases canvasActive <;> simp [setScissor]

/-- C2: `bindTexture` issues exactly one driver bind call if and only if
the handle differs from the cache's handle for the current unit; after
the call the cached handle for the current unit equals the requested
handle; and on an equal handle no driver call is issued and the cache is
unchanged. -/
theorem bindTexture_cache_discipline (st : GLState) (t : Nat)
    (h : st.curTextureUnit < st.textureUnits.length) :
    (bindTexture st t).1 =
      (if t = st.textureUnits.getD st.curTextureUnit 0 then []
       else [DriverCall.bindTextureCall t]) ∧
    (bindTexture st t).2.textureUnits.getD st.curTextureUnit 0 = t ∧
    (t = st.textureUnits.getD st.curTextureUnit 0 → (bindTexture st t).2 = st) := by
  by_cases hc : t = st.textureUnits.getD st.curTextureUnit 0
  · have hbt : bindTexture st t = ([], st) := by
      unfold bindTexture
      rw [if_neg (not_not_intro hc)]
    rw [hbt]
    exact ⟨by rw [if_pos hc], hc.symm, fun _ => rfl⟩
  · have hbt : bindTexture st t =
        ([DriverCall.bindTextureCall t],
         { st with textureUnits := st.textureUnits.set st.curTextureUnit t }) := by
      unfold bindTexture
      rw [if_pos hc]
    rw [hbt]
    refine ⟨by rw [if_neg hc], ?_, fun he => absurd he hc⟩
    show (st.textureUnits.set st.curTextureUnit t).getD st.curTextureUnit 0 = t
    rw [List.getD_eq_getElem _ _ (by simpa using h)]
    simp

theorem bindTexture_cache_discipline_wit :
    demoState.curTextureUnit < demoState.textureUnits.length ∧
    (bindTexture demoState 5).2.textureUnits.getD demoState.curTextureUnit 0 = 5 :=
  ⟨by decide, (bindTexture_cache_discipline demoState 5 (by decide)).2.1⟩

/-- C6: `setViewport` stores the new viewport in the cache, leaves the
cached scissor rectangle unchanged, and re-issues the driver scissor
call with the vertical coordinate recomputed against the new viewport
height. -/
theorem setViewport_reapplies_scissor (canvasActive : Bool) (st : GLState) (v : Viewport) :
    (setViewport canvasActive st v).2.viewport = v ∧
    (setViewport canvasActive st v).2.scissor = st.scissor ∧
    (setViewport canvasActive st v).1 =
      [DriverCall.viewportCall v.x v.y v.w v.h,
       DriverCall.scissorCall st.scissor.x
         (if canvasActive then st.scissor.y
          else v.h - (st.scissor.y + st.scissor.h))
         st.scissor.w st.scissor.h] := by
  cases canvasActive <;> simp [setViewport, setScissor]

/-- C8: vendor classification at the spec's sample inputs: the strings
NVIDIA Corporation, Intel Open Source Technology Center and
ATI Technologies Inc. classify to NVIDIA, Intel and ATI/AMD
respectively, an unmatched string classifies to unknown, and an absent
vendor string classifies to unknown. -/
theorem initVendor_classification :
    initVendor (Option.some ("NVIDIA Corporation")) = Vendor.nvidia ∧
    initVendor (Option.some ("Intel Open Source Technology Center")) = Vendor.intel ∧
    initVendor (Option.some ("ATI Technologies Inc.")) = Vendor.atiAmd ∧
    initVendor (Option.some ("unknown vendor xyz")) = Vendor.unknown ∧
    initVendor Option.none = Vendor.unknown :=
  ⟨by decide, by decide, by decide, by decide, by decide⟩

/-- C3 counterexample: the claim says pop never removes the last
remaining element for every sequence of operations, but `popTransform`
is an unguarded `pop_back()`: applied directly to the freshly
initialized one-entry stack it leaves the stack empty. -/
theorem popTransform_empties_singleton :
    initMatrices.transform.length = 1 ∧
    popTransform initMatrices.transform = [] :=
  ⟨rfl, rfl⟩

theorem stackSafe_preserves_nonempty (ops : List StackOp) :
    ∀ st : List Matrix, 1 ≤ st.length → stackSafe st.length ops = true →
      1 ≤ (applyOps ops st).length := by
  induction ops with
  | nil =>
    intro st h1 _
    simpa [applyOps] using h1
  | cons o r ih =>
    intro st h1 hs
    cases o with
    | push =>
      rcases st with _ | ⟨x, xs⟩
      · simp at h1
      · simp only [stackSafe, Bool.and_eq_true, decide_eq_true_eq] at hs
        have h2 := ih (pushTransform (x :: xs)) (by simp [pushTransform])
          (by simpa [pushTransform] using hs.2)
        simpa [applyOps] using h2
    | pop =>
      rcases st with _ | ⟨x, xs⟩
      · simp at h1
      · simp only [stackSafe, Bool.and_eq_true, decide_eq_true_eq] at hs
        rcases xs with _ | ⟨y, ys⟩
        · simp at hs
        · have h2 := ih (popTransform (x :: y :: ys)) (by simp [popTransform])
            (by simpa [popTransform] using hs.2)
          simpa [applyOps] using h2

/-- C3 amended: after initialization each stack holds exactly one entry
and push duplicates the top entry; for every sequence of push and pop
operations that respects the caller contract (no pop ever applied to a
one-entry stack), both stacks stay non-empty.  (An out-of-contract pop
on a one-entry stack does remove its last element.) -/
theorem matrixStack_nonempty_invariant (ops : List StackOp)
    (h : stackSafe 1 ops = true) :
    initMatrices.transform.length = 1 ∧
    initMatrices.projection.length = 1 ∧
    (∀ x xs, pushTransform (x :: xs) = x :: x :: xs) ∧
    1 ≤ (applyOps ops initMatrices.transform).length ∧
    1 ≤ (applyOps ops initMatrices.projection).length := by
  refine ⟨rfl, rfl, fun x xs => rfl, ?_, ?_⟩
  · exact stackSafe_preserves_nonempty ops initMatrices.transform (by simp [initMatrices])
      (by simpa [initMatrices] using h)
  · exact stackSafe_preserves_nonempty ops initMatrices.projection (by simp [initMatrices])
      (by simpa [initMatrices] using h)

theorem matrixStack_nonempty_invariant_wit :
    stackSafe 1 [StackOp.push, StackOp.pop] = true ∧
    1 ≤ (applyOps [StackOp.push, StackOp.pop] initMatrices.transform).length :=
  ⟨by decide, (matrixStack_nonempty_invariant [StackOp.push, StackOp.pop] (by decide)).2.2.2.1⟩

theorem pushPop_aux (n : Nat) (x : Matrix) (xs : List Matrix) :
    popTransform^[n] (pushTransform^[n] (x :: xs)) = x :: xs := by
  induction n generalizing x xs with
  | zero => rfl
  | succ k ih =>
    rw [Function.iterate_succ_apply']
    rw [Function.iterate_succ_apply]
    have h1 : pushTransform (x :: xs) = x :: x :: xs := rfl
    rw [h1, ih x (x :: xs)]
    rfl

/-- C7: for every non-empty stack and every N, a balanced sequence of N
pushes followed by N pops restores the stack (in particular its top
entry) to its pre-push value. -/
theorem pushPop_balanced_roundtrip (n : Nat) (st : List Matrix) (h : st ≠ []) :
    (popTransform^[n] (pushTransform^[n] st)).head? = st.head? ∧
    popTransform^[n] (pushTransform^[n] st) = st := by
  rcases st with _ | ⟨x, xs⟩
  · exact absurd rfl h
  · have e := pushPop_aux n x xs
    exact ⟨by rw [e], e⟩

theorem pushPop_balanced_roundtrip_wit :
    ([Matrix.identity] : List Matrix) ≠ [] ∧
    popTransform^[2] (pushTransform^[2] ([Matrix.identity] : List Matrix)) =
      [Matrix.identity] :=
  ⟨by simp, (pushPop_balanced_roundtrip 2 [Matrix.identity] (by simp)).2⟩

/-- C4 counterexample: the claim says any non-default blend equation
requested on a driver with no equation mechanism raises a capability
fault, but the code only checks for `GL_FUNC_REVERSE_SUBTRACT`:
requesting `GL_FUNC_SUBTRACT` with no mechanism available completes
without a fault. -/
theorem setBlendState_subtract_no_fault :
    GL_FUNC_SUBTRACT ≠ GL_FUNC_ADD ∧
    eqMechanism noCaps = false ∧
    (setBlendState noCaps demoState subtractBlend).2.2 = Option.none ∧
    (setBlendState noCaps demoState subtractBlend).1 =
      [DriverCall.blendFuncCall GL_ONE GL_ZERO] :=
  ⟨by decide, by decide, by decide, by decide⟩

/-- C4 amended: when the equation stage does not fault (some equation
mechanism exists, or the equation is not reverse-subtract): matching RGB
and alpha factors issue the combined `glBlendFunc` call; differing
factors issue a separated call (core or EXT) when separate-factor
support exists and fault otherwise; and a reverse-subtract equation on a
driver with no equation mechanism faults (other non-default equations
are silently left at the driver default). -/
theorem setBlendState_spec (c : GLCaps) (st : GLState) (b : BlendState) :
    (b.srcRGB = b.srcA → b.dstRGB = b.dstA →
      (eqMechanism c = true ∨ b.func ≠ GL_FUNC_REVERSE_SUBTRACT) →
      (setBlendState c st b).2.2 = Option.none ∧
      DriverCall.blendFuncCall b.srcRGB b.dstRGB ∈ (setBlendState c st b).1) ∧
    (¬(b.srcRGB = b.srcA ∧ b.dstRGB = b.dstA) →
      (eqMechanism c = true ∨ b.func ≠ GL_FUNC_REVERSE_SUBTRACT) →
      (sepMechanism c = true →
        (setBlendState c st b).2.2 = Option.none ∧
        (DriverCall.blendFuncSeparateCore b.srcRGB b.dstRGB b.srcA b.dstA ∈
            (setBlendState c st b).1 ∨
         DriverCall.blendFuncSeparateEXT b.srcRGB b.dstRGB b.srcA b.dstA ∈
            (setBlendState c st b).1)) ∧
      (sepMechanism c = false → ((setBlendState c st b).2.2).isSome = true)) ∧
    (eqMechanism c = false → b.func = GL_FUNC_REVERSE_SUBTRACT →
      ((setBlendState c st b).2.2).isSome = true) := by
  rcases c with ⟨es2, v14, mm, sub, sep⟩
  by_cases h1 : b.srcRGB = b.srcA <;>
    by_cases h2 : b.dstRGB = b.dstA <;>
      by_cases hq : b.func = GL_FUNC_REVERSE_SUBTRACT <;>
        cases es2 <;> cases v14 <;> cases mm <;> cases sub <;> cases sep <;>
          simp_all [setBlendState, blendFactorStage, eqMechanism, sepMechanism]

theorem setBlendState_spec_wit :
    (setBlendState coreCaps demoState defaultBlend).2.2 = Option.none ∧
    DriverCall.blendFuncCall defaultBlend.srcRGB defaultBlend.dstRGB ∈
      (setBlendState coreCaps demoState defaultBlend).1 :=
  (setBlendState_spec coreCaps demoState defaultBlend).1 rfl rfl (Or.inl (by decide))

/-- C9: a capability fault raised by `setBlendState` leaves the cached
blend state (and the whole cache) unchanged: the cache update is the
last action of the fault-free path. -/
theorem setBlendState_fault_preserves_cache (c : GLCaps) (st : GLState)
    (b : BlendState) (h : ((setBlendState c st b).2.2).isSome = true) :
    (setBlendState c st b).2.1 = st ∧
    getBlendState (setBlendState c st b).2.1 = getBlendState st := by
  rcases c with ⟨es2, v14, mm, sub, sep⟩
  by_cases h1 : b.srcRGB = b.srcA <;>
    by_cases h2 : b.dstRGB = b.dstA <;>
      by_cases hq : b.func = GL_FUNC_REVERSE_SUBTRACT <;>
        cases es2 <;> cases v14 <;> cases mm <;> cases sub <;> cases sep <;>
          simp_all [setBlendState, blendFactorStage, getBlendState]

theorem setBlendState_fault_preserves_cache_wit :
    ((setBlendState noCaps demoState revSubBlend).2.2).isSome = true ∧
    getBlendState (setBlendState noCaps demoState revSubBlend).2.1 =
      getBlendState demoState :=
  ⟨by decide,
   (setBlendState_fault_preserves_cache noCaps demoState revSubBlend (by decide)).2⟩

/-- C5 counterexample: the claim says the requested anisotropy is
clamped into `[1, maxAnisotropy]` and the clamped value is returned, but
with the anisotropic-filtering extension absent the code skips the clamp
entirely: a requested anisotropy of 0 is returned as 0, below the
interval. -/
theorem setTextureFilter_no_clamp_without_ext :
    (setTextureFilter false 1 lowAnisoFilter).2.2 = 0 ∧
    ¬ (1 ≤ (setTextureFilter false 1 lowAnisoFilter).2.2) :=
  ⟨by decide, by decide⟩

/-- C5 amended: when the anisotropic-filtering extension is present,
`setTextureFilter` clamps the requested anisotropy into
`[1, maxAnisotropy]`, issues the driver call with the clamped value and
returns it; when the extension is absent, no anisotropy driver call is
issued and the requested value is returned unchanged (unclamped). -/
theorem setTextureFilter_anisotropy_spec (maxA : ℚ) (f : Filter) :
    (setTextureFilter true maxA f).2.2 = min (max f.anisotropy 1) maxA ∧
    DriverCall.texParameterf GL_TEXTURE_MAX_ANISOTROPY_EXT
        (min (max f.anisotropy 1) maxA) ∈ (setTextureFilter true maxA f).1 ∧
    (1 ≤ maxA →
      1 ≤ (setTextureFilter true maxA f).2.2 ∧
      (setTextureFilter true maxA f).2.2 ≤ maxA) ∧
    (setTextureFilter false maxA f).2.2 = f.anisotropy ∧
    (∀ p q, DriverCall.texParameterf p q ∉ (setTextureFilter false maxA f).1) := by
  refine ⟨by simp [setTextureFilter], by simp [setTextureFilter], ?_, by simp [setTextureFilter], ?_⟩
  · intro hA
    constructor
    · simp only [setTextureFilter]
      exact le_min (le_max_right _ _) hA
    · simp only [setTextureFilter]
      exact min_le_right _ _
  · intro p q
    simp [setTextureFilter]

theorem setTextureFilter_anisotropy_spec_wit :
    (1 : ℚ) ≤ 8 ∧
    1 ≤ (setTextureFilter true 8 demoFilter).2.2 ∧
    (setTextureFilter true 8 demoFilter).2.2 ≤ 8 :=
  ⟨by norm_num,
   ((setTextureFilter_anisotropy_spec 8 demoFilter).2.2.1 (by norm_num)).1,
   ((setTextureFilter_anisotropy_spec 8 demoFilter).2.2.1 (by norm_num)).2⟩

/-- C10 counterexample: the claim quantifies over every `size_t` pair,
but on a 64-bit platform the conversion `(int64)oldsize` wraps for
`oldsize = 2^64 - 1`: starting from a counter of 10, a decrease of
`2^64 - 1` (far exceeding the counter) yields 11 instead of saturating
at zero. -/
theorem updateTextureMemorySize_wraps_large :
    updateTextureMemorySize 10 (2 ^ 64 - 1) 0 = 11 ∧
    10 < (2 ^ 64 - 1 : Nat) - 0 ∧
    updateTextureMemorySize 10 (2 ^ 64 - 1) 0 ≠ 0 :=
  ⟨by decide, by decide, by decide⟩

theorem wrap64_eq_self (i : Int) (h1 : -(2 ^ 63) ≤ i) (h2 : i < 2 ^ 63) :
    wrap64 i = i := by
  unfold wrap64
  rw [Int.emod_eq_of_lt (by omega) (by omega)]
  omega

/-- C10 amended: for every pair of sizes representable in `int64`
arithmetic without overflow (`oldsize < 2^63` and
`counter + newsize < 2^63`), the counter becomes
`max(0, counter + newsize - oldsize)`: it stays non-negative, and when
the decrease `oldsize - newsize` exceeds the counter it saturates at
zero instead of wrapping. -/
theorem updateTextureMemorySize_saturates (mem oldsize newsize : Nat)
    (h1 : mem + newsize < 2 ^ 63) (h2 : oldsize < 2 ^ 63) :
    updateTextureMemorySize mem oldsize newsize =
      ((mem : Int) + (newsize : Int) - (oldsize : Int)).toNat ∧
    (mem + newsize ≤ oldsize → updateTextureMemorySize mem oldsize newsize = 0) := by
  have e1 : toInt64 mem = (mem : Int) := by
    unfold toInt64; exact wrap64_eq_self _ (by omega) (by omega)
  have e2 : toInt64 oldsize = (oldsize : Int) := by
    unfold toInt64; exact wrap64_eq_self _ (by omega) (by omega)
  have e3 : toInt64 newsize = (newsize : Int) := by
    unfold toInt64; exact wrap64_eq_self _ (by omega) (by omega)
  have key : updateTextureMemorySize mem oldsize newsize =
      ((mem : Int) + (newsize : Int) - (oldsize : Int)).toNat := by
    unfold updateTextureMemorySize
    rw [e1, e2, e3]
    rw [wrap64_eq_self ((newsize : Int) - (oldsize : Int)) (by omega) (by omega)]
    rw [wrap64_eq_self ((mem : Int) + ((newsize : Int) - (oldsize : Int)))
      (by omega) (by omega)]
    have harr : (mem : Int) + ((newsize : Int) - (oldsize : Int)) =
        (mem : Int) + (newsize : Int) - (oldsize : Int) := by ring
    rw [harr]
    show (max ((mem : Int) + (newsize : Int) - (oldsize : Int)) 0).toNat =
      ((mem : Int) + (newsize : Int) - (oldsize : Int)).toNat
    rcases le_total ((mem : Int) + (newsize : Int) - (oldsize : Int)) 0 with hle | hle
    · rw [max_eq_right hle, Int.toNat_of_nonpos hle]
      rfl
    · rw [max_eq_left hle]
  refine ⟨key, fun hle => ?_⟩
  rw [key]
  apply Int.toNat_of_nonpos
  omega

theorem updateTextureMemorySize_saturates_wit :
    5 + 2 < 2 ^ 63 ∧ (9 : Nat) < 2 ^ 63 ∧ updateTextureMemorySize 5 9 2 = 0 :=
  ⟨by norm_num, by norm_num,
   (updateTextureMemorySize_saturates 5 9 2 (by norm_num) (by norm_num)).2 (by norm_num)⟩

end LoveGL
